import Mathlib

/-!
Verification development for the DeGirum GStreamer plugin's client protocol
engine (DG::Client and DG::main_protocol).  The definitions below are a
shallow embedding of the C++ sources:

* `src/dgfilternv_Async/include/Utilities/dg_socket.h` (framing, connect
  timeout handling, asynchronous read arming),
* `src/dgfilternv_Async/include/client/dg_client.cpp` (the Client facade:
  command channel, asynchronous streaming pipeline),
* `src/dgaccelerator/include/Utilities/dg_json_helpers.h` (`errorCheck`),
* `src/include/Utilities/dg_client_structs.h` (protocol constants).

Bytes are modelled as natural numbers below 256, byte streams as lists,
machine integers as `Nat`/`Int` with explicit wrap-around where the code
casts, and thrown C++ exceptions as `Except` error values.
-/

namespace DGClient

/-! ## Protocol constants (`dg_client_structs.h`) -/

/-- Client-server protocol version tag (`DG::PROTOCOL_VERSION_TAG`). -/
def PROTOCOL_VERSION_TAG : String := "VERSION"

/-- Minimum compatible client-server protocol version. -/
def MIN_COMPATIBLE_PROTOCOL_VERSION : Int := 4

/-- Current client-server protocol version. -/
def CURRENT_PROTOCOL_VERSION : Int := 4

/-- Default TCP port of the AI server (`DG::DEFAULT_PORT`). -/
def DEFAULT_PORT : Int := 8778

namespace main_protocol

/-! ## Framing primitives (`dg_socket.h`)

A message on the wire is a 4-byte big-endian length header followed by the
payload.  `write` models `DG::main_protocol::write`: it prepends the header
produced by `htonl( static_cast<uint32_t>( packet_size ) )`.  `read` models
`DG::main_protocol::read`: it consumes one header, then reads the announced
number of payload bytes, returning the number of payload bytes read, the
payload buffer and the unconsumed remainder of the stream. -/

/-- Header size in bytes: `sizeof( uint32_t ) / sizeof( char )`. -/
def HEADER_SIZE : Nat := 4

/-- Big-endian byte encoding of a 32-bit value, as produced by `htonl`
applied to `n` truncated to `uint32_t`. -/
def htonl (n : Nat) : List Nat :=
  [n % 2 ^ 32 / 2 ^ 24, n % 2 ^ 32 / 2 ^ 16 % 256, n % 2 ^ 32 / 2 ^ 8 % 256, n % 2 ^ 32 % 256]

/-- Decode a 4-byte big-endian header into a host-order value (`ntohl`). -/
def ntohl (bs : List Nat) : Nat :=
  match bs with
  | [a, b, c, d] => ((a * 256 + b) * 256 + c) * 256 + d
  | _ => 0

/-- Models `DG::main_protocol::write`: a framed message is the 4-byte
big-endian length header followed by the payload bytes. -/
def write (packet : List Nat) : List Nat :=
  htonl packet.length ++ packet

/-- Models `DG::main_protocol::read` on a byte stream.  Returns
`Except.ok (bytes_read, buffer, rest)` mirroring the source's return value
(the number of payload bytes read), the filled `response_buffer` (resized to
the announced packet size, `std::vector` value-initializing fresh bytes
to 0), and the unread remainder of the stream.  A stream that ends before a
header arrives yields `bytes_read = 0` (clean end-of-stream); a truncated
header raises a `SocketException`. -/
def read (stream : List Nat) : Except String (Nat × List Nat × List Nat) :=
  if stream.length = 0 then
    .ok (0, [], stream)
  else if stream.length < HEADER_SIZE then
    .error "Fail to read incoming packet length from socket"
  else
    let packet_size := ntohl (stream.take HEADER_SIZE)
    let rest := stream.drop HEADER_SIZE
    let bytes_read := min packet_size rest.length
    .ok (bytes_read,
         rest.take packet_size ++ List.replicate (packet_size - rest.length) 0,
         rest.drop packet_size)

/-! ## Connect timeout handling (`dg_socket.h`)

`run_async( io_context, timeout_ms )` runs the executor with
`run_for( timeout_ms )` when `timeout_ms > 0` and with plain `run()`
(no deadline, until completion of all tasks) when `timeout_ms == 0`.
`socket_connect( io_context, ip, port, timeout_s )` drives the pending
asynchronous connect through `run_async( io_context, timeout_s * 1000 )`.
The `Client` constructor and `openStream` both pass
`m_connection_timeout_ms / 1000` as `timeout_s`. -/

/-- Execution mode of the ASIO executor inside `run_async`. -/
inductive RunMode where
  | untilCompletion
  | runFor (timeout_ms : Nat)
deriving Repr, DecidableEq

/-- Models the timeout dispatch of `DG::main_protocol::run_async`. -/
def run_async (timeout_ms : Nat) : RunMode :=
  if timeout_ms > 0 then .runFor timeout_ms else .untilCompletion

/-- Models how `DG::main_protocol::socket_connect` drives the pending
connect: it runs the executor via `run_async( io_context, timeout_s * 1000 )`. -/
def socket_connect_run (timeout_s : Nat) : RunMode :=
  run_async (timeout_s * 1000)

end main_protocol

/-- Models the connect call made by the `Client` constructor (and by
`openStream`): the millisecond timeout is converted to whole seconds by
integer division `m_connection_timeout_ms / 1000` before being handed to
`socket_connect`. -/
def client_connect_run (connection_timeout_ms : Nat) : main_protocol.RunMode :=
  main_protocol.socket_connect_run (connection_timeout_ms / 1000)

/-! ## Server-address parsing (`Client::Client`)

The constructor looks for the first `":"` in the server address string; if
none is found the whole string is the host and the port defaults to
`DG::DEFAULT_PORT`, otherwise the prefix is the host and `atoi` of the
remainder is the port. -/

/-- Server address structure (`DG::ServerAddress`). -/
structure ServerAddress where
  ip : List Char
  port : Int
deriving Repr, DecidableEq

/-- Accumulate the decimal value of a leading digit run, as the digit loop
of `atoi` does; stops at the first non-digit character. -/
def digitsVal : List Char → Nat → Nat
  | c :: cs, acc => if c.isDigit then digitsVal cs (acc * 10 + (c.toNat - 48)) else acc
  | [], acc => acc

/-- Predicate matching the characters skipped by `atoi`'s leading
whitespace loop (C `isspace`). -/
def isSpaceChar (c : Char) : Bool :=
  c = ' ' ∨ c = '\t' ∨ c = '\n' ∨ c = '\x0b' ∨ c = '\x0c' ∨ c = '\r'

/-- Models C `atoi`: skip leading whitespace, accept one optional sign,
then accumulate leading decimal digits (0 if there are none). -/
def atoi (cs : List Char) : Int :=
  match cs.dropWhile isSpaceChar with
  | [] => 0
  | c :: rest =>
      if c = '-' then -(digitsVal rest 0 : Int)
      else if c = '+' then (digitsVal rest 0 : Int)
      else (digitsVal (c :: rest) 0 : Int)

/-- Models the server-address parsing in the `Client` constructor:
`server_address.find( ":" )`, then either the whole string with the default
port, or the split at the first colon with `atoi` applied to the suffix. -/
def parseServerAddress (server_address : List Char) : ServerAddress :=
  match server_address.findIdx? (fun c => c = ':') with
  | none => ⟨server_address, DEFAULT_PORT⟩
  | some delimiter =>
      ⟨server_address.take delimiter, atoi (server_address.drop (delimiter + 1))⟩

/-! ## JSON model and the command channel (`dg_client.cpp`, `dg_json_helpers.h`)

A small model of the nlohmann JSON values that the command-channel checks
inspect.  Objects are association lists keyed by field name.  Thrown
`DGException`s are modelled as `Except` errors carrying the `DGErr` kind. -/

/-- JSON value model. -/
inductive Json where
  | null
  | jbool (b : Bool)
  | jnum (n : Int)
  | jstr (s : String)
  | jobj (fields : List (String × Json))
deriving Repr

/-- Models `json::is_object`. -/
def Json.isObject : Json → Bool
  | .jobj _ => true
  | _ => false

/-- Field lookup in a JSON object (`operator[]` on a present key); `none`
for absent keys or non-objects. -/
def Json.lookup : Json → String → Option Json
  | .jobj fields, key => fields.lookup key
  | _, _ => none

/-- Models `json::contains`. -/
def Json.contains (j : Json) (key : String) : Bool :=
  (j.lookup key).isSome

/-- Error kinds thrown by the client code paths modelled here:
`ErrOperationFailed` and `ErrNotSupportedVersion` from `DG_ERROR`, and the
`json::type_error` raised by `get<T>` on a mistyped field. -/
inductive DGErr where
  | errOperationFailed (msg : String)
  | errNotSupportedVersion (msg : String)
  | errTypeMismatch
deriving Repr, DecidableEq

/-- Models `DG::JsonHelper::errorCheck( response, source, do_throw )`.
If the response carries `"success": false`, the error message is the
`"msg"` field (or `"unspecified error"` when absent); with `do_throw` the
call raises `ErrOperationFailed` with the message prefixed by `source`,
otherwise it returns the message.  Without a `"success"` field, or with
`"success": true`, it returns the empty string.  A mistyped `"success"` or
`"msg"` field makes `get<T>` throw a type error. -/
def errorCheck (response : Json) (source : String) (do_throw : Bool) :
    Except DGErr String :=
  match response.lookup "success" with
  | none => .ok ""
  | some (.jbool true) => .ok ""
  | some (.jbool false) =>
      let msgE : Except DGErr String :=
        match response.lookup "msg" with
        | none => .ok "unspecified error"
        | some (.jstr m) => .ok m
        | some _ => .error .errTypeMismatch
      match msgE with
      | .error e => .error e
      | .ok msg =>
          if do_throw then
            .error (.errOperationFailed (if source = "" then msg else source ++ ": " ++ msg))
          else .ok msg
  | some _ => .error .errTypeMismatch

/-- Models the reply-validation stage of `Client::transmitCommand( source,
request, response )`, applied to the parsed reply: a non-object reply or a
reply without the protocol-version field raises `ErrNotSupportedVersion`;
then `errorCheck` runs with `do_throw = true`; on success the reply object
is stored in `response` and the call returns `true`, modelled as `.ok`
carrying the reply. -/
def transmitCommand (response : Json) (source : String) : Except DGErr Json :=
  if !response.isObject then
    .error (.errNotSupportedVersion "Response from server is incorrect.")
  else if !response.contains PROTOCOL_VERSION_TAG then
    .error (.errNotSupportedVersion "AI server protocol version data is missing in response from server.")
  else
    match errorCheck response source true with
    | .error e => .error e
    | .ok _ => .ok response

/-- Models `Client::ping()`: run `transmitCommand( "ping", request,
response )` inside `try`/`catch(...)`, returning `true` on success and
`false` when any exception is caught. -/
def ping (response : Json) : Bool :=
  match transmitCommand response "ping" with
  | .ok _ => true
  | .error _ => false

/-! ## Asynchronous streaming pipeline state (`dg_client.cpp`)

State of the lock-protected pipeline variables of one `DG::Client`:
the frame-info FIFO queue, the outstanding-result counter, the stop flag,
the latched error string, whether the result receiving thread is joinable,
and how many asynchronous header reads are currently queued on the stream
socket (`pending_reads`, counted to state the single-pending-read
discipline).  `frame_queue_depth` is set by `openStream` and constant
afterwards.  Each transition below models one lock-protected critical
section of the source as one atomic step. -/

structure ClientState where
  frame_info_queue : List String
  outstanding : Nat
  async_stop : Bool
  last_error : String
  thread_joinable : Bool
  pending_reads : Nat
  frame_queue_depth : Nat
deriving Repr, DecidableEq

/-- State right after `openStream( model_name, frame_queue_depth, ... )`
on a fresh client: empty queue, no outstanding results, no stop request,
no error, no receiving thread, no queued read. -/
def initState (frame_queue_depth : Nat) : ClientState :=
  ⟨[], 0, false, "", false, 0, frame_queue_depth⟩

/-- Models the `check_last_error` lambda in `Client::dataSend`:
`m_async_stop && !m_last_error.empty()`. -/
def check_last_error (s : ClientState) : Bool :=
  s.async_stop && !(s.last_error == "")

/-- Models `Client::dataSend( data, frame_info )` on the pipeline state:
return unchanged if an error is latched; otherwise push the frame info,
increment the outstanding counter, arm the asynchronous header read when
the counter became 1, and, when the receiving thread is not joinable,
restart the pipeline by clearing the stop flag and the last error and
launching the thread. -/
def dataSend (s : ClientState) (frame_info : String) : ClientState :=
  if check_last_error s then s
  else
    let s1 : ClientState :=
      { s with
        frame_info_queue := s.frame_info_queue ++ [frame_info]
        outstanding := s.outstanding + 1
        pending_reads := if s.outstanding + 1 = 1 then s.pending_reads + 1 else s.pending_reads }
    if !s1.thread_joinable then
      { s1 with async_stop := false, last_error := "", thread_joinable := true }
    else s1

/-- Models `Client::dataReceive` once the queued header read has
completed (consuming it) and the result payload has been parsed, with
`err_msg` the result of `errorCheck( result, "", false )`: pop the oldest
frame info; on a server-reported error latch the message, force the
outstanding counter to 0 and set the stop flag, otherwise decrement the
counter; finally arm the next header read exactly when requests remain
unanswered. -/
def dataReceive (s : ClientState) (err_msg : String) : ClientState :=
  let s1 : ClientState :=
    if err_msg ≠ "" then
      { s with
        frame_info_queue := s.frame_info_queue.tail
        last_error := err_msg
        outstanding := 0
        async_stop := true }
    else
      { s with
        frame_info_queue := s.frame_info_queue.tail
        outstanding := s.outstanding - 1 }
  { s1 with
    pending_reads := (s.pending_reads - 1) + (if 0 < s1.outstanding then 1 else 0) }

/-- Models the `catch` block of the result receiving thread: a
communication exception latches its message, forces the outstanding
counter to 0 and sets the stop flag; the failed read is no longer
queued. -/
def threadFail (s : ClientState) (msg : String) : ClientState :=
  { s with
    last_error := msg
    outstanding := 0
    async_stop := true
    pending_reads := s.pending_reads - 1 }

/-- Models `Client::dataEnd()`: set the stop flag and join the result
receiving thread. -/
def dataEnd (s : ClientState) : ClientState :=
  { s with async_stop := true, thread_joinable := false }

/-- One transition of the asynchronous pipeline.  `send` fires when the
caller is not blocked on the queue-depth wait (the wait predicate is
`m_async_outstanding_results < m_frame_queue_depth || m_async_stop`, and a
latched error returns early regardless); `receive` fires when the queued
header read completes on a non-empty frame-info queue; `fail` is the
receiving thread's catch block with a non-empty exception message; `drain`
is `dataEnd`. -/
inductive Step : ClientState → ClientState → Prop where
  | send (s : ClientState) (frame_info : String)
      (hw : check_last_error s = true ∨ s.outstanding < s.frame_queue_depth ∨ s.async_stop = true) :
      Step s (dataSend s frame_info)
  | receive (s : ClientState) (err_msg : String)
      (hp : 0 < s.pending_reads) (hq : s.frame_info_queue ≠ []) :
      Step s (dataReceive s err_msg)
  | fail (s : ClientState) (msg : String) (hm : msg ≠ "") (hp : 0 < s.pending_reads) :
      Step s (threadFail s msg)
  | drain (s : ClientState) : Step s (dataEnd s)

/-- States of the pipeline reachable from a fresh stream. -/
inductive Reachable (depth : Nat) : ClientState → Prop where
  | init : Reachable depth (initState depth)
  | step {s t : ClientState} : Reachable depth s → Step s t → Reachable depth t

/-- Inductive invariant of the pipeline: when no error is latched the
frame-info queue length equals the outstanding counter; a latched error
implies the stop flag; and the number of queued header reads is 1 exactly
when results are outstanding, 0 otherwise. -/
def Inv (s : ClientState) : Prop :=
  (s.last_error = "" → s.frame_info_queue.length = s.outstanding)
  ∧ (s.last_error ≠ "" → s.async_stop = true)
  ∧ s.pending_reads = (if 0 < s.outstanding then 1 else 0)

/-- Boolean check unfolding: an error is latched exactly when the stop flag
is set and the last error string is non-empty. -/
theorem check_last_error_iff (s : ClientState) :
    check_last_error s = true ↔ s.async_stop = true ∧ s.last_error ≠ "" := by
  simp [check_last_error]

/-- The invariant holds in the initial state. -/
theorem inv_init (depth : Nat) : Inv (initState depth) := by
  simp [Inv, initState]

/-- The invariant is preserved by every pipeline transition. -/
theorem inv_step {s t : ClientState} (hi : Inv s) (h : Step s t) : Inv t := by
  obtain ⟨h1, h2, h3⟩ := hi
  cases h with
  | send fi hw =>
      by_cases hc : check_last_error s = true
      · simpa [dataSend, hc] using ⟨h1, h2, h3⟩
      · have herr : s.last_error = "" := by
          by_cases hst : s.async_stop = true
          · by_contra hne
            exact hc ((check_last_error_iff s).mpr ⟨hst, hne⟩)
          · by_contra hne
            exact hst (h2 hne)
        have hlen := h1 herr
        have hcc : check_last_error s = false := by simpa using hc
        refine ⟨?_, ?_, ?_⟩ <;>
          · simp only [dataSend, hcc, Bool.false_eq_true, if_false]
            split <;> simp_all [Inv]
  | receive err hp hq =>
      have hout : 0 < s.outstanding := by
        by_contra hzero
        simp only [Nat.pos_iff_ne_zero, ne_eq, not_not] at hzero
        rw [hzero] at h3
        simp at h3
        omega
      have hpend : s.pending_reads = 1 := by rw [h3]; simp [hout]
      by_cases he : err = ""
      · subst he
        refine ⟨?_, ?_, ?_⟩
        · intro herr'
          have hlen : s.frame_info_queue.length = s.outstanding := by
            apply h1
            simpa [dataReceive] using herr'
          simp only [dataReceive, ne_eq, not_true_eq_false, if_false, List.length_tail]
          omega
        · intro herr'
          have hstop := h2 (by simpa [dataReceive] using herr')
          simpa [dataReceive] using hstop
        · simp [dataReceive, hpend]
      · refine ⟨?_, ?_, ?_⟩ <;> simp_all [dataReceive, Inv]
  | fail msg hm hp =>
      have hple : s.pending_reads ≤ 1 := by rw [h3]; split <;> omega
      refine ⟨?_, ?_, ?_⟩ <;> simp_all [threadFail, Inv]
  | drain =>
      refine ⟨?_, ?_, ?_⟩ <;> simp_all [dataEnd, Inv]

/-- Every reachable pipeline state satisfies the invariant. -/
theorem inv_reachable {depth : Nat} {s : ClientState} (h : Reachable depth s) : Inv s := by
  induction h with
  | init => exact inv_init depth
  | step _ hstep ih => exact inv_step ih hstep

/-- A latched error makes `dataSend` return immediately: the state is
unchanged — nothing is pushed, no counter moves, nothing is sent. -/
theorem latched_send_noop (s : ClientState) (hstop : s.async_stop = true)
    (herr : s.last_error ≠ "") (g : String) : dataSend s g = s := by
  have hc : check_last_error s = true := (check_last_error_iff s).mpr ⟨hstop, herr⟩
  simp [dataSend, hc]

/-- C1 (corrected) — Fail-fast on a mid-stream server error: when
`dataReceive` decodes a result carrying a server-reported error, it
records the message as the last error, sets the stop flag and forces the
outstanding counter to 0; every subsequent `dataSend` made while the stop
flag is set with a non-empty last error returns without sending, pushing
or changing the counter; and — contrary to the claim's final clause — a
drain (`dataEnd`) followed by a fresh `dataSend` does NOT clear the
latched error: the latch survives `dataEnd` and the fresh `dataSend` is
again a no-op, because the reset of the stop flag and the error is only
reachable when the last error is empty (a stop without a recorded error,
i.e. a normal drain, is the only state a fresh `dataSend` restarts
from). -/
theorem C1_fail_fast_error_latch (s t : ClientState) (err g g2 g3 : String)
    (herr : err ≠ "") (_hstop : t.async_stop = true) (hclean : t.last_error = "")
    (hnj : t.thread_joinable = false) :
    (dataReceive s err).last_error = err
    ∧ (dataReceive s err).async_stop = true
    ∧ (dataReceive s err).outstanding = 0
    ∧ dataSend (dataReceive s err) g = dataReceive s err
    ∧ (dataEnd (dataReceive s err)).last_error = err
    ∧ dataSend (dataEnd (dataReceive s err)) g2 = dataEnd (dataReceive s err)
    ∧ (dataSend t g3).async_stop = false ∧ (dataSend t g3).last_error = "" := by
  have hrec1 : (dataReceive s err).last_error = err := by simp [dataReceive, herr]
  have hrec2 : (dataReceive s err).async_stop = true := by simp [dataReceive, herr]
  have hrec3 : (dataReceive s err).outstanding = 0 := by simp [dataReceive, herr]
  have hde1 : (dataEnd (dataReceive s err)).last_error = err := by simp [dataEnd, hrec1]
  have hde2 : (dataEnd (dataReceive s err)).async_stop = true := by simp [dataEnd]
  refine ⟨hrec1, hrec2, hrec3,
    latched_send_noop _ hrec2 (by rw [hrec1]; exact herr) g,
    hde1,
    latched_send_noop _ hde2 (by rw [hde1]; exact herr) g2, ?_, ?_⟩
  · have hc : check_last_error t = false := by simp [check_last_error, hclean]
    simp [dataSend, hc, hnj]
  · have hc : check_last_error t = false := by simp [check_last_error, hclean]
    simp [dataSend, hc, hnj]

/-- Witness for C1 (corrected) on the concrete one-frame trace ending in
the server error `"E"`, and the clean-drain state reached by `dataEnd`
from a fresh stream. -/
theorem C1_fail_fast_error_latch_witness :
    (dataReceive (dataSend (initState 1) "a") "E").last_error = "E"
    ∧ (dataReceive (dataSend (initState 1) "a") "E").async_stop = true
    ∧ (dataReceive (dataSend (initState 1) "a") "E").outstanding = 0
    ∧ dataSend (dataReceive (dataSend (initState 1) "a") "E") "b"
        = dataReceive (dataSend (initState 1) "a") "E"
    ∧ (dataEnd (dataReceive (dataSend (initState 1) "a") "E")).last_error = "E"
    ∧ dataSend (dataEnd (dataReceive (dataSend (initState 1) "a") "E")) "c"
        = dataEnd (dataReceive (dataSend (initState 1) "a") "E")
    ∧ (dataSend (dataEnd (initState 1)) "d").async_stop = false
    ∧ (dataSend (dataEnd (initState 1)) "d").last_error = "" :=
  C1_fail_fast_error_latch (dataSend (initState 1) "a") (dataEnd (initState 1))
    "E" "b" "c" "d" (by decide) (by decide) (by decide) (by decide)

/-- C1 (as stated) fails on its final clause: after the error `"boom"` is
latched, a drain (`dataEnd`) followed by a fresh `dataSend` leaves the
error latched — the fresh `dataSend` is itself a no-op and the last error
is still `"boom"`, not cleared. -/
theorem C1_counterexample_drain_does_not_clear :
    dataSend (dataEnd (dataReceive (dataSend (initState 2) "f1") "boom")) "f2"
      = dataEnd (dataReceive (dataSend (initState 2) "f1") "boom")
    ∧ (dataSend (dataEnd (dataReceive (dataSend (initState 2) "f1") "boom")) "f2").last_error
      = "boom"
    ∧ (dataSend (dataEnd (dataReceive (dataSend (initState 2) "f1") "boom")) "f2").frame_info_queue
      = [] := by
  refine ⟨by decide, by decide, by decide⟩

/-- C2 — Queue/counter pairing invariant: in every reachable state with
the stop flag clear the frame-info queue length equals the outstanding
counter; a `dataSend` that passes the latched-error check pushes exactly
its frame-info entry and increments the counter by one; a successful
(non-error) attribution in `dataReceive` pops exactly the oldest entry
and decrements the counter by one. -/
theorem C2_queue_counter_pairing {depth : Nat} {s : ClientState} (h : Reachable depth s)
    (hs : s.async_stop = false) (fi : String) :
    s.frame_info_queue.length = s.outstanding
    ∧ (check_last_error s = false →
        (dataSend s fi).frame_info_queue = s.frame_info_queue ++ [fi]
        ∧ (dataSend s fi).outstanding = s.outstanding + 1)
    ∧ (s.frame_info_queue ≠ [] →
        (dataReceive s "").frame_info_queue = s.frame_info_queue.tail
        ∧ (dataReceive s "").outstanding + 1 = s.outstanding) := by
  obtain ⟨h1, h2, h3⟩ := inv_reachable h
  have herr : s.last_error = "" := by
    by_contra hne
    rw [h2 hne] at hs
    cases hs
  have hlen := h1 herr
  refine ⟨hlen, ?_, ?_⟩
  · intro hc
    constructor <;> · simp only [dataSend, hc, Bool.false_eq_true, if_false]
                      split <;> simp
  · intro hq
    have hqlen : 0 < s.frame_info_queue.length := List.length_pos.mpr hq
    constructor
    · simp [dataReceive]
    · simp only [dataReceive, ne_eq, not_true_eq_false, if_false, List.length_tail]
      omega

/-- Witness for C2 on the reachable state after one `dataSend` on a fresh
depth-2 stream. -/
theorem C2_queue_counter_pairing_witness :
    (dataSend (initState 2) "f1").frame_info_queue.length
      = (dataSend (initState 2) "f1").outstanding
    ∧ (check_last_error (dataSend (initState 2) "f1") = false →
        (dataSend (dataSend (initState 2) "f1") "f2").frame_info_queue
          = (dataSend (initState 2) "f1").frame_info_queue ++ ["f2"]
        ∧ (dataSend (dataSend (initState 2) "f1") "f2").outstanding
          = (dataSend (initState 2) "f1").outstanding + 1)
    ∧ ((dataSend (initState 2) "f1").frame_info_queue ≠ [] →
        (dataReceive (dataSend (initState 2) "f1") "").frame_info_queue
          = (dataSend (initState 2) "f1").frame_info_queue.tail
        ∧ (dataReceive (dataSend (initState 2) "f1") "").outstanding + 1
          = (dataSend (initState 2) "f1").outstanding) :=
  C2_queue_counter_pairing
    (Reachable.step Reachable.init
      (Step.send (initState 2) "f1" (Or.inr (Or.inl (by decide)))))
    (by decide) "f2"

/-- C3 — Single-pending-read discipline: in every reachable state at most
one asynchronous header read is queued on the stream socket (exactly one
when results are outstanding, none otherwise); `dataSend` arms a read
exactly when it proceeds past the latched-error check with the
outstanding counter at 0 (the 0-to-1 transition); `dataReceive` consumes
the completed read and re-arms exactly when the counter remains positive
afterwards. -/
theorem C3_single_pending_read {depth : Nat} {s : ClientState} (h : Reachable depth s)
    (fi err_msg : String) :
    s.pending_reads ≤ 1
    ∧ s.pending_reads = (if 0 < s.outstanding then 1 else 0)
    ∧ (dataSend s fi).pending_reads
        = s.pending_reads + (if check_last_error s = false ∧ s.outstanding = 0 then 1 else 0)
    ∧ (dataReceive s err_msg).pending_reads
        = (s.pending_reads - 1)
          + (if 0 < (dataReceive s err_msg).outstanding then 1 else 0) := by
  obtain ⟨h1, h2, h3⟩ := inv_reachable h
  refine ⟨by rw [h3]; split <;> omega, h3, ?_, ?_⟩
  · by_cases hc : check_last_error s = true
    · simp [dataSend, hc]
    · have hcc : check_last_error s = false := by simpa using hc
      simp only [dataSend, hcc, Bool.false_eq_true, if_false]
      by_cases hz : s.outstanding = 0
      · split <;> simp [hz]
      · split <;> simp [hz]
  · by_cases he : err_msg = "" <;> simp [dataReceive, he]

/-- Witness for C3 on the fresh depth-3 stream state. -/
theorem C3_single_pending_read_witness :
    (initState 3).pending_reads ≤ 1
    ∧ (initState 3).pending_reads = (if 0 < (initState 3).outstanding then 1 else 0)
    ∧ (dataSend (initState 3) "f1").pending_reads
        = (initState 3).pending_reads
          + (if check_last_error (initState 3) = false ∧ (initState 3).outstanding = 0
             then 1 else 0)
    ∧ (dataReceive (initState 3) "").pending_reads
        = ((initState 3).pending_reads - 1)
          + (if 0 < (dataReceive (initState 3) "").outstanding then 1 else 0) :=
  C3_single_pending_read Reachable.init "f1" ""

/-- C10 (corrected) — Error attribution pops only the oldest frame-info
entry while forcing the outstanding counter to 0: every other in-flight
entry remains queued.  But — contrary to the claim's consequence — no
later `dataSend` can restart a session that would correlate those stale
entries with new results: with the error latched every later `dataSend`
returns the state unchanged, so no new frame or tag ever enters the
pipeline and the stale entries simply persist. -/
theorem C10_error_leaves_stale_entries (s : ClientState) (err fi g : String)
    (rest : List String) (herr : err ≠ "") (hq : s.frame_info_queue = fi :: rest) :
    (dataReceive s err).frame_info_queue = rest
    ∧ (dataReceive s err).outstanding = 0
    ∧ (dataReceive s err).last_error = err
    ∧ dataSend (dataReceive s err) g = dataReceive s err := by
  have h1 : (dataReceive s err).frame_info_queue = rest := by
    simp [dataReceive, herr, hq]
  have h2 : (dataReceive s err).outstanding = 0 := by simp [dataReceive, herr]
  have h3 : (dataReceive s err).last_error = err := by simp [dataReceive, herr]
  have h4 : (dataReceive s err).async_stop = true := by simp [dataReceive, herr]
  exact ⟨h1, h2, h3, latched_send_noop _ h4 (by rw [h3]; exact herr) g⟩

/-- Witness for C10 (corrected) on the three-frame trace whose first
result is the server error `"bad"`. -/
theorem C10_error_leaves_stale_entries_witness :
    (dataReceive (dataSend (dataSend (dataSend (initState 5) "f1") "f2") "f3")
        "bad").frame_info_queue = ["f2", "f3"]
    ∧ (dataReceive (dataSend (dataSend (dataSend (initState 5) "f1") "f2") "f3")
        "bad").outstanding = 0
    ∧ (dataReceive (dataSend (dataSend (dataSend (initState 5) "f1") "f2") "f3")
        "bad").last_error = "bad"
    ∧ dataSend
        (dataReceive (dataSend (dataSend (dataSend (initState 5) "f1") "f2") "f3") "bad") "g1"
      = dataReceive (dataSend (dataSend (dataSend (initState 5) "f1") "f2") "f3") "bad" :=
  C10_error_leaves_stale_entries
    (dataSend (dataSend (dataSend (initState 5) "f1") "f2") "f3") "bad" "f1" "g1"
    ["f2", "f3"] (by decide) (by decide)

/-- C10 (as stated) fails on its consequence: after the 3-frame trace with
an error attributed to the first frame, the stale entries `["f2", "f3"]`
do remain, but the later `dataSend` with the new tag `"g1"` leaves the
state completely unchanged — no session restarts and no correlation of
stale entries with any new result ever takes place. -/
theorem C10_counterexample_no_restarted_session :
    (dataReceive (dataSend (dataSend (dataSend (initState 5) "f1") "f2") "f3")
        "bad").frame_info_queue = ["f2", "f3"]
    ∧ dataSend
        (dataReceive (dataSend (dataSend (dataSend (initState 5) "f1") "f2") "f3") "bad") "g1"
      = dataReceive (dataSend (dataSend (dataSend (initState 5) "f1") "f2") "f3") "bad"
    ∧ (dataSend
        (dataReceive (dataSend (dataSend (dataSend (initState 5) "f1") "f2") "f3") "bad")
        "g1").frame_info_queue = ["f2", "f3"] := by
  refine ⟨by decide, by decide, by decide⟩

/-! ## Theorems about the framing primitives -/

/-- Decoding a big-endian header recovers the encoded 32-bit value. -/
theorem ntohl_htonl (n : Nat) (h : n < 2 ^ 32) :
    main_protocol.ntohl (main_protocol.htonl n) = n := by
  simp only [main_protocol.htonl, main_protocol.ntohl]
  omega

/-- A framed write of a payload below the 32-bit length limit is read back
exactly by one framed read. -/
theorem read_write (b : List Nat) (hb : b.length < 2 ^ 32) :
    main_protocol.read (main_protocol.write b) = .ok (b.length, b, []) := by
  have htake : (main_protocol.write b).take 4 = main_protocol.htonl b.length := by
    simp [main_protocol.write, main_protocol.htonl]
  have hdrop : (main_protocol.write b).drop 4 = b := by
    simp [main_protocol.write, main_protocol.htonl]
  have hlen : (main_protocol.write b).length = 4 + b.length := by
    simp [main_protocol.write, main_protocol.htonl]
    omega
  unfold main_protocol.read
  rw [if_neg (by omega), if_neg (by simp only [main_protocol.HEADER_SIZE]; omega)]
  simp only [main_protocol.HEADER_SIZE, htake, hdrop, ntohl_htonl b.length hb]
  simp [List.take_length, List.drop_length]

/-- C5 — Framing round-trip: for every byte buffer `b` whose length fits
the 4-byte header, `read (write b)` returns `b` exactly (consuming the
whole stream and reporting `b.length` payload bytes); writing the empty
buffer is read back as the end-of-stream indication `0` bytes — the same
value `read` returns on an already-ended stream — rather than an error. -/
theorem C5_framing_round_trip (b : List Nat) (hb : b.length < 2 ^ 32) :
    main_protocol.read (main_protocol.write b) = .ok (b.length, b, [])
    ∧ main_protocol.read (main_protocol.write []) = .ok (0, [], [])
    ∧ main_protocol.read [] = .ok (0, [], []) := by
  refine ⟨read_write b hb, ?_, rfl⟩
  simpa using read_write [] (by simp)

/-- Witness for C5 at the concrete buffer `[10, 20, 255]`. -/
theorem C5_framing_round_trip_witness :
    main_protocol.read (main_protocol.write [10, 20, 255]) = .ok (3, [10, 20, 255], [])
    ∧ main_protocol.read (main_protocol.write []) = .ok (0, [], [])
    ∧ main_protocol.read [] = .ok (0, [], []) :=
  C5_framing_round_trip [10, 20, 255] (by simp)

/-! ## Theorems about the connect timeout -/

/-- C9 — Connection-timeout truncation: the client converts its
millisecond connection timeout to whole seconds by integer division before
`socket_connect`, which multiplies by 1000 and hands the product to
`run_async`; the executor runs with no deadline at all exactly when the
original millisecond timeout was below 1000 (the computed seconds value is
0 and `run_async` treats a zero timeout as run-until-completion). -/
theorem C9_connect_timeout_truncation (connection_timeout_ms : Nat) :
    client_connect_run connection_timeout_ms = .untilCompletion
      ↔ connection_timeout_ms < 1000 := by
  unfold client_connect_run main_protocol.socket_connect_run main_protocol.run_async
  split
  · rename_i h
    constructor
    · intro hcon
      exact absurd hcon (by simp)
    · intro hlt
      exfalso
      omega
  · rename_i h
    simp only [eq_self_iff_true, true_iff]
    omega

/-! ## Theorems about server-address parsing -/

/-- A string without a colon has no colon index, at any accumulator. -/
theorem findIdx_no_colon (addr : List Char) (h : ':' ∉ addr) (i : Nat) :
    addr.findIdx? (fun c => c = ':') i = none := by
  induction addr generalizing i with
  | nil => simp
  | cons c cs ih =>
      have hc : ¬(c = ':') := by
        intro hcc
        exact h (hcc ▸ List.mem_cons_self c cs)
      rw [List.findIdx?_cons, if_neg (by simpa using hc)]
      exact ih (fun hm => h (List.mem_cons_of_mem c hm)) (i + 1)

/-- The index of the first colon in `pre ++ ':' :: suf` is `pre.length`
when `pre` is colon-free. -/
theorem findIdx_first_colon (pre suf : List Char) (hp : ':' ∉ pre) (i : Nat) :
    (pre ++ ':' :: suf).findIdx? (fun c => c = ':') i = some (pre.length + i) := by
  induction pre generalizing i with
  | nil => simp [List.findIdx?_cons]
  | cons c cs ih =>
      have hc : ¬(c = ':') := by
        intro hcc
        exact hp (hcc ▸ List.mem_cons_self c cs)
      rw [List.cons_append, List.findIdx?_cons, if_neg (by simpa using hc),
          ih (fun hm => hp (List.mem_cons_of_mem c hm)) (i + 1)]
      simp
      omega

/-- No space character is a decimal digit. -/
theorem digit_not_space {c : Char} (hd : c.isDigit = true) : isSpaceChar c = false := by
  cases hsp : isSpaceChar c
  · rfl
  · exfalso
    have hcases : c = ' ' ∨ c = '\t' ∨ c = '\n' ∨ c = '\x0b' ∨ c = '\x0c' ∨ c = '\r' := by
      simpa [isSpaceChar] using hsp
    rcases hcases with rfl | rfl | rfl | rfl | rfl | rfl <;> exact absurd hd (by decide)

/-- On an all-digit string `atoi` is exactly the decimal digit
accumulation: there is no whitespace to skip and no sign to consume. -/
theorem atoi_digits (suf : List Char) (hd : ∀ c ∈ suf, c.isDigit = true) :
    atoi suf = (digitsVal suf 0 : Int) := by
  unfold atoi
  cases suf with
  | nil => rfl
  | cons c cs =>
      have hcd := hd c (List.mem_cons_self c cs)
      rw [List.dropWhile_cons, if_neg (by simp [digit_not_space hcd])]
      have h1 : ¬(c = '-') := by
        intro hcc
        exact absurd (hcc ▸ hcd) (by decide)
      have h2 : ¬(c = '+') := by
        intro hcc
        exact absurd (hcc ▸ hcd) (by decide)
      simp [h1, h2]

/-- C8 — Server-address parsing: an address without a `':'` separator
becomes the host with the default port 8778; an address
`pre ++ ":" ++ suf` (with `pre` colon-free, so the split happens at the
first colon) yields host `pre` and port `atoi suf`; when the suffix is a
digit string its decimal value becomes the port. -/
theorem C8_server_address_parsing (addr pre suf : List Char)
    (hna : ':' ∉ addr) (hnp : ':' ∉ pre) (hdig : ∀ c ∈ suf, c.isDigit = true) :
    parseServerAddress addr = ⟨addr, DEFAULT_PORT⟩
    ∧ parseServerAddress (pre ++ ':' :: suf) = ⟨pre, atoi suf⟩
    ∧ (parseServerAddress (pre ++ ':' :: suf)).port = (digitsVal suf 0 : Int) := by
  have hsplit : parseServerAddress (pre ++ ':' :: suf) = ⟨pre, atoi suf⟩ := by
    unfold parseServerAddress
    rw [findIdx_first_colon pre suf hnp 0]
    dsimp only
    have htake : (pre ++ ':' :: suf).take (pre.length + 0) = pre := by
      simp only [Nat.add_zero]
      exact List.take_left pre (':' :: suf)
    have hdrop : (pre ++ ':' :: suf).drop (pre.length + 0 + 1) = suf := by
      have : pre ++ ':' :: suf = (pre ++ [':']) ++ suf := by simp
      rw [this]
      have hl : pre.length + 0 + 1 = (pre ++ [':']).length := by simp
      rw [hl, List.drop_left]
    rw [htake, hdrop]
  refine ⟨?_, hsplit, ?_⟩
  · unfold parseServerAddress
    rw [findIdx_no_colon addr hna 0]
  · rw [hsplit]
    exact atoi_digits suf hdig

/-! ## Theorems about the command channel -/

/-- The server-error check never raises a protocol-version error: its only
failure kinds are `ErrOperationFailed` and a `get<T>` type mismatch. -/
theorem errorCheck_no_version_error (response : Json) (source : String) (do_throw : Bool)
    (m : String) :
    errorCheck response source do_throw ≠ .error (.errNotSupportedVersion m) := by
  unfold errorCheck
  dsimp only
  repeat' split
  all_goals try simp
  rename_i e heq
  split at heq
  · simp_all
  · simp_all
  · intro hcon
    subst hcon
    simp at heq

/-- C4 (as stated) fails: a reply whose `"VERSION"` value is 999 — far
outside the supported range `[4, 4]` — passes `transmitCommand`'s
validation, because the code checks only that the reply is an object
containing the version field and never compares the value against
`MIN_COMPATIBLE_PROTOCOL_VERSION`/`CURRENT_PROTOCOL_VERSION`. -/
theorem C4_counterexample_version_range_unchecked :
    transmitCommand (Json.jobj [(PROTOCOL_VERSION_TAG, Json.jnum 999)]) "modelzooListGet"
      = .ok (Json.jobj [(PROTOCOL_VERSION_TAG, Json.jnum 999)])
    ∧ ¬(MIN_COMPATIBLE_PROTOCOL_VERSION ≤ 999 ∧ (999 : Int) ≤ CURRENT_PROTOCOL_VERSION) := by
  constructor
  · rfl
  · intro hcon
    have := hcon.2
    norm_num [CURRENT_PROTOCOL_VERSION] at this

/-- C4 (amended) — Command-channel protocol-version validation: a reply
that is not a JSON object, or that lacks the `"VERSION"` field, fails with
a protocol-version error; any reply that is an object containing the
`"VERSION"` field — whatever its value — passes the version validation
(no protocol-version error is possible) and proceeds to the server-error
check. -/
theorem C4_version_presence_validation (response : Json) (source : String) :
    (response.isObject = false →
        transmitCommand response source
          = .error (.errNotSupportedVersion "Response from server is incorrect."))
    ∧ (response.isObject = true → response.contains PROTOCOL_VERSION_TAG = false →
        transmitCommand response source
          = .error (.errNotSupportedVersion
              "AI server protocol version data is missing in response from server."))
    ∧ (response.isObject = true → response.contains PROTOCOL_VERSION_TAG = true →
        (∀ m, transmitCommand response source ≠ .error (.errNotSupportedVersion m))
        ∧ transmitCommand response source
            = (match errorCheck response source true with
               | .error e => .error e
               | .ok _ => .ok response)) := by
  refine ⟨?_, ?_, ?_⟩
  · intro hobj
    simp [transmitCommand, hobj]
  · intro hobj hver
    simp [transmitCommand, hobj, hver]
  · intro hobj hver
    constructor
    · intro m
      simp only [transmitCommand, hobj, hver, Bool.not_true, Bool.false_eq_true, if_false]
      split
      · rename_i e he
        intro hcon
        have hem : e = .errNotSupportedVersion m := by simpa using hcon
        exact errorCheck_no_version_error response source true m (hem ▸ he)
      · simp
    · simp [transmitCommand, hobj, hver]

/-- Witness for C4 (amended) at a concrete object reply with `"VERSION"`
present. -/
theorem C4_version_presence_validation_witness :
    transmitCommand (Json.jobj [(PROTOCOL_VERSION_TAG, Json.jnum 4)]) "systemInfo"
      ≠ .error (.errNotSupportedVersion "anything") :=
  ((C4_version_presence_validation (Json.jobj [(PROTOCOL_VERSION_TAG, Json.jnum 4)])
      "systemInfo").2.2 rfl rfl).1 "anything"

/-- C6 — Command success and failure paths: a reply object carrying the
version field succeeds (the reply is stored and the call returns `true`,
modelled by `.ok` carrying the reply) when `"success"` is `true` or
absent; a reply with `"success": false` raises `ErrOperationFailed` whose
message is the reply's `"msg"` field prefixed by the operation source
(hence contains the `"msg"` text as a suffix), or a default message when
`"msg"` is absent. -/
theorem C6_command_success_failure_paths (fields : List (String × Json)) (source m : String)
    (hv : (Json.jobj fields).contains PROTOCOL_VERSION_TAG = true) :
    ((Json.jobj fields).lookup "success" = none →
        transmitCommand (Json.jobj fields) source = .ok (Json.jobj fields))
    ∧ ((Json.jobj fields).lookup "success" = some (Json.jbool true) →
        transmitCommand (Json.jobj fields) source = .ok (Json.jobj fields))
    ∧ ((Json.jobj fields).lookup "success" = some (Json.jbool false) →
        (Json.jobj fields).lookup "msg" = some (Json.jstr m) →
        transmitCommand (Json.jobj fields) source
          = .error (.errOperationFailed (if source = "" then m else source ++ ": " ++ m))
        ∧ ∃ p, (if source = "" then m else source ++ ": " ++ m) = p ++ m)
    ∧ ((Json.jobj fields).lookup "success" = some (Json.jbool false) →
        (Json.jobj fields).lookup "msg" = none →
        transmitCommand (Json.jobj fields) source
          = .error (.errOperationFailed
              (if source = "" then "unspecified error"
               else source ++ ": " ++ "unspecified error"))) := by
  refine ⟨?_, ?_, ?_, ?_⟩
  · intro hs
    simp [transmitCommand, Json.isObject, hv, errorCheck, hs]
  · intro hs
    simp [transmitCommand, Json.isObject, hv, errorCheck, hs]
  · intro hs hm
    constructor
    · simp [transmitCommand, Json.isObject, hv, errorCheck, hs, hm]
    · by_cases hsrc : source = ""
      · exact ⟨"", by simp [hsrc]⟩
      · exact ⟨source ++ ": ", by simp [hsrc, String.append_assoc]⟩
  · intro hs hm
    simp [transmitCommand, Json.isObject, hv, errorCheck, hs, hm]

/-- Witness for C6 at a concrete failure reply
`{"VERSION": 4, "success": false, "msg": "x"}` with source `"op"`. -/
theorem C6_command_success_failure_paths_witness :
    transmitCommand
        (Json.jobj
          [(PROTOCOL_VERSION_TAG, Json.jnum 4), ("success", Json.jbool false),
           ("msg", Json.jstr "x")]) "op"
      = .error (.errOperationFailed (if "op" = "" then "x" else "op" ++ ": " ++ "x"))
    ∧ ∃ p, (if "op" = "" then "x" else "op" ++ ": " ++ "x") = p ++ "x" :=
  (C6_command_success_failure_paths
      [(PROTOCOL_VERSION_TAG, Json.jnum 4), ("success", Json.jbool false),
       ("msg", Json.jstr "x")] "op" "x" rfl).2.2.1 rfl rfl

/-- C7 — Ping error-swallowing: a server-reported failure reply makes the
inner `transmitCommand` raise `ErrOperationFailed` carrying the server's
message, but `ping` wraps the call in `try`/`catch(...)`: no exception
propagates to `ping`'s caller, and `ping` reports the outcome as a plain
boolean — `false` on the failure reply, `true` on a success reply. -/
theorem C7_ping_swallows_server_error (fields : List (String × Json)) (m : String)
    (hv : (Json.jobj fields).contains PROTOCOL_VERSION_TAG = true) :
    ((Json.jobj fields).lookup "success" = some (Json.jbool false) →
        (Json.jobj fields).lookup "msg" = some (Json.jstr m) →
        transmitCommand (Json.jobj fields) "ping"
          = .error (.errOperationFailed ("ping" ++ ": " ++ m))
        ∧ ping (Json.jobj fields) = false)
    ∧ ((Json.jobj fields).lookup "success" = some (Json.jbool true) →
        ping (Json.jobj fields) = true) := by
  constructor
  · intro hs hm
    have htc :
        transmitCommand (Json.jobj fields) "ping"
          = .error (.errOperationFailed ("ping" ++ ": " ++ m)) := by
      simp [transmitCommand, Json.isObject, hv, errorCheck, hs, hm]
    exact ⟨htc, by simp [ping, htc]⟩
  · intro hs
    simp [ping, transmitCommand, Json.isObject, hv, errorCheck, hs]

/-- Witness for C7 at concrete failure and success replies. -/
theorem C7_ping_swallows_server_error_witness :
    (transmitCommand
        (Json.jobj
          [(PROTOCOL_VERSION_TAG, Json.jnum 4), ("success", Json.jbool false),
           ("msg", Json.jstr "busy")]) "ping"
      = .error (.errOperationFailed ("ping" ++ ": " ++ "busy"))
    ∧ ping (Json.jobj
        [(PROTOCOL_VERSION_TAG, Json.jnum 4), ("success", Json.jbool false),
         ("msg", Json.jstr "busy")]) = false) :=
  (C7_ping_swallows_server_error
      [(PROTOCOL_VERSION_TAG, Json.jnum 4), ("success", Json.jbool false),
       ("msg", Json.jstr "busy")] "busy" rfl).1 rfl rfl

/-- Witness for C8 at `"localhost"` and `"10.0.0.1" : "9000"`. -/
theorem C8_server_address_parsing_witness :
    parseServerAddress "localhost".toList = ⟨"localhost".toList, DEFAULT_PORT⟩
    ∧ parseServerAddress ("10.0.0.1".toList ++ ':' :: "9000".toList)
        = ⟨"10.0.0.1".toList, atoi "9000".toList⟩
    ∧ (parseServerAddress ("10.0.0.1".toList ++ ':' :: "9000".toList)).port
        = (digitsVal "9000".toList 0 : Int) :=
  C8_server_address_parsing "localhost".toList "10.0.0.1".toList "9000".toList
    (by decide) (by decide) (by decide)

end DGClient
